import Mathlib

/-!
Verification of the memory-block entity and its host-mapping state machine
from `gpu-alloc/src/block.rs`, as a shallow embedding in Lean 4.

Machine integers (`u64`, `usize`, `isize`) are modelled as `Nat` with explicit
bounds where the source checks them.  The per-block `AtomicU8` mapping state is
modelled as an explicit `MappingState` value threaded through the operations
(the operations here are sequential functions from the pre-state to the
post-state).  The device collaborator is a record of response functions, and
each operation additionally returns the list of device calls it issued, so that
claims about which device calls happen (and with which ranges) are statable.
Panics (`expect` / `assert!` / `unwrap`) are modelled as an explicit `panic`
outcome carrying the message.
-/

namespace GpuAlloc

/-- The number of values of `u64`: machine `u64` arithmetic is `Nat` arithmetic
below this bound. -/
def U64_LIMIT : Nat := 2 ^ 64

/-- The largest value representable by `isize` (64-bit host). -/
def ISIZE_MAX : Nat := 2 ^ 63 - 1

/-- Modelled from the spec: `align_down(value, mask)` from the crate root
(`gpu-alloc/src/lib.rs`, not under `src/`) returns the largest multiple of
`mask + 1` that is at most `value` (for a power-of-two-minus-one mask this is
`value & !mask`). -/
def align_down (value mask : Nat) : Nat :=
  value / (mask + 1) * (mask + 1)

/-- Modelled from the spec: `align_up(value, mask)` from the crate root
(`gpu-alloc/src/lib.rs`, not under `src/`) returns the smallest multiple of
`mask + 1` that is at least `value`, reporting failure (`none`) if the result
would overflow the 64-bit address width. -/
def align_up (value mask : Nat) : Option Nat :=
  let r := (value + mask) / (mask + 1) * (mask + 1)
  if r < U64_LIMIT then some r else none

/-- The four values of the per-block mapping atomic (`MAPPING_STATE_*`). -/
inductive MappingState where
  | unmapped
  | mapping
  | mapped
  | unmapping
deriving DecidableEq

/-- `acquire_mapping`: CAS `Unmapped -> Mapped`; returns whether it succeeded
together with the new state. -/
def acquire_mapping : MappingState → Bool × MappingState
  | .unmapped => (true, .mapped)
  | s => (false, s)

/-- `start_mapping`: CAS `Unmapped -> Mapping`. -/
def start_mapping : MappingState → Bool × MappingState
  | .unmapped => (true, .mapping)
  | s => (false, s)

/-- `end_mapping`: unconditional store `Mapped` (the caller holds `Mapping`). -/
def end_mapping : MappingState → MappingState := fun _ => .mapped

/-- `mapping_failed`: unconditional store `Unmapped` (the caller holds
`Mapping`), releasing the claim after a failed device map call. -/
def mapping_failed : MappingState → MappingState := fun _ => .unmapped

/-- `start_unmapping`: CAS `Mapped -> Unmapping`. -/
def start_unmapping : MappingState → Bool × MappingState
  | .mapped => (true, .unmapping)
  | s => (false, s)

/-- `end_unmapping`: unconditional store `Unmapped`. -/
def end_unmapping : MappingState → MappingState := fun _ => .unmapped

/-- The subset of `MemoryPropertyFlags` bits the block consults. -/
structure MemoryPropertyFlags where
  host_visible : Bool
  host_coherent : Bool
  host_cached : Bool
deriving DecidableEq

/-- `MemoryBlockFlavor`: how the block was produced and how it is mapped.
Resident host pointers (`NonNull<u8>`) are modelled as `Nat` addresses. -/
inductive MemoryBlockFlavor where
  | dedicated
  | linear (chunk : Nat) (ptr : Option Nat)
  | buddy (chunk : Nat) (index : Nat) (ptr : Option Nat)
deriving DecidableEq

/-- Modelled from the spec: `DeviceMapError`, the collaborator error type for
`map_memory` (`gpu-alloc-types`, not under `src/`). -/
inductive DeviceMapError where
  | outOfDeviceMemory
  | outOfHostMemory
  | mapFailed
deriving DecidableEq

/-- Modelled from the spec: `OutOfMemory`, the collaborator error type for
flush/invalidate (`gpu-alloc-types`, not under `src/`). -/
inductive OutOfMemory where
  | outOfDeviceMemory
  | outOfHostMemory
deriving DecidableEq

/-- Modelled from the spec: `MapError` (`gpu-alloc/src/error.rs`, not under
`src/`), the typed error returned by the mapping operations. -/
inductive MapError where
  | outOfDeviceMemory
  | outOfHostMemory
  | nonHostVisible
  | mapFailed
  | alreadyMapped
deriving DecidableEq

/-- Modelled from the spec: the `From<DeviceMapError> for MapError` conversion
(the typed map error is derived from the collaborator error). -/
def MapError.fromDevice : DeviceMapError → MapError
  | .outOfDeviceMemory => .outOfDeviceMemory
  | .outOfHostMemory => .outOfHostMemory
  | .mapFailed => .mapFailed

/-- Modelled from the spec: the `From<OutOfMemory> for MapError` conversion. -/
def MapError.fromOutOfMemory : OutOfMemory → MapError
  | .outOfDeviceMemory => .outOfDeviceMemory
  | .outOfHostMemory => .outOfHostMemory

/-- A device call issued by a block operation, with the absolute byte range
where the call takes one. -/
inductive DeviceCall where
  | mapMemory (offset : Nat) (size : Nat)
  | unmapMemory
  | flushMemoryRanges (offset : Nat) (size : Nat)
  | invalidateMemoryRanges (offset : Nat) (size : Nat)
deriving DecidableEq

/-- The device collaborator: deterministic response functions for each
operation the block issues.  `map_memory` takes the absolute offset and size
and returns a host pointer (a `Nat` address) or an error; flush/invalidate take
the single range the block passes. -/
structure Device where
  map_memory : Nat → Nat → Except DeviceMapError Nat
  flush_memory_ranges : Nat → Nat → Except OutOfMemory Unit
  invalidate_memory_ranges : Nat → Nat → Except OutOfMemory Unit

/-- `MemoryBlock`: the sub-allocation entity.  The native handle `M` is
modelled as a `Nat` identifier; `mapped` is the mapping-state atomic. -/
structure MemoryBlock where
  memory : Nat
  memory_type : Nat
  props : MemoryPropertyFlags
  offset : Nat
  size : Nat
  atom_mask : Nat
  mapped : MappingState
  flavor : MemoryBlockFlavor
deriving DecidableEq

/-- `self.coherent()`: whether `props` contains `HOST_COHERENT`. -/
def MemoryBlock.coherent (b : MemoryBlock) : Bool :=
  b.props.host_coherent

def sizeFitMsg : String := "size does not fit device address space"

def offsetOOBMsg : String := "offset is out of memory block bounds"

def sizeOOBMsg : String := "offset + size is out of memory block bounds"

def mappingEndMsg : String := "mapping end does not fit device address space"

def hostSpaceMsg : String := "Buddy and linear block should fit host address space"

def atomMaskMsg : String := "atom_mask is too large"

def unwrapNoneMsg : String := "called Option unwrap on a None value"

/-- Outcome of `map`: a panic (with its message), a typed error, or a host
pointer (a `Nat` address). -/
inductive MapOutcome where
  | panic (msg : String)
  | err (e : MapError)
  | ok (ptr : Nat)
deriving DecidableEq

/-- Result of a `map` call: its outcome, the mapping state after the call, and
the device calls it issued, in order. -/
structure MapResult where
  out : MapOutcome
  state : MappingState
  calls : List DeviceCall
deriving DecidableEq

/-- The Linear/Buddy arm of `map` when a resident pointer `p` is present:
`acquire_mapping`, then `isize::try_from(offset)` (which panics above
`ISIZE_MAX`, after the state was already claimed), then the resident pointer
advanced by `offset`. -/
def mapResident (b : MemoryBlock) (offset p : Nat) : MapResult :=
  match acquire_mapping b.mapped with
  | (false, s) => ⟨.err .alreadyMapped, s, []⟩
  | (true, s) =>
    if ISIZE_MAX < offset then ⟨.panic hostSpaceMsg, s, []⟩
    else ⟨.ok (p + offset), s, []⟩

/-- `MemoryBlock::map`: checks the contract assertions, then dispatches on
flavor.  Dedicated: compute the aligned window, claim `Mapping`, issue the
device `map_memory` call, complete with `end_mapping` on success (returning the
device pointer advanced by `offset - aligned_offset`) or roll back with
`mapping_failed` on device error.  Linear/Buddy with a resident pointer: claim
via the single `acquire_mapping` CAS and offset the resident pointer.  Any
other case: `NonHostVisible`. -/
def MemoryBlock.map (b : MemoryBlock) (device : Device) (offset size : Nat) :
    MapResult :=
  if U64_LIMIT ≤ size then ⟨.panic sizeFitMsg, b.mapped, []⟩
  else if b.size ≤ offset then ⟨.panic offsetOOBMsg, b.mapped, []⟩
  else if b.size - offset < size then ⟨.panic sizeOOBMsg, b.mapped, []⟩
  else
    match b.flavor with
    | .dedicated =>
      match align_up (offset + size) b.atom_mask with
      | none => ⟨.panic mappingEndMsg, b.mapped, []⟩
      | some e =>
        let aligned_offset := align_down offset b.atom_mask
        match start_mapping b.mapped with
        | (false, s) => ⟨.err .alreadyMapped, s, []⟩
        | (true, s) =>
          match device.map_memory (b.offset + aligned_offset) (e - aligned_offset) with
          | .ok ptr =>
            ⟨.ok (ptr + (offset - aligned_offset)), end_mapping s,
             [.mapMemory (b.offset + aligned_offset) (e - aligned_offset)]⟩
          | .error err =>
            ⟨.err (MapError.fromDevice err), mapping_failed s,
             [.mapMemory (b.offset + aligned_offset) (e - aligned_offset)]⟩
    | .linear _ (some p) => mapResident b offset p
    | .buddy _ _ (some p) => mapResident b offset p
    | _ => ⟨.err .nonHostVisible, b.mapped, []⟩

/-- `MemoryBlock::unmap`: `start_unmapping`; on failure return `false` (benign
no-op); on success issue the device `unmap_memory` call for Dedicated flavor
only, then `end_unmapping` and return `true`. -/
def MemoryBlock.unmap (b : MemoryBlock) (_device : Device) :
    Bool × MappingState × List DeviceCall :=
  match start_unmapping b.mapped with
  | (false, s) => (false, s, [])
  | (true, s) =>
    match b.flavor with
    | .dedicated => (true, end_unmapping s, [.unmapMemory])
    | _ => (true, end_unmapping s, [])

/-- Outcome of `write_bytes` / `read_bytes`: panic, typed error, or success. -/
inductive RWOutcome where
  | panic (msg : String)
  | err (e : MapError)
  | ok
deriving DecidableEq

/-- Result of a transient read/write: outcome, final mapping state, device
calls issued in order, and whether the byte copy between the caller buffer and
the mapped region happened. -/
structure RWResult where
  out : RWOutcome
  state : MappingState
  calls : List DeviceCall
  copied : Bool
deriving DecidableEq

/-- Converts a flush/invalidate device result into the operation outcome
(`result.map_err(Into::into)`). -/
def resultOf : Except OutOfMemory Unit → RWOutcome
  | .ok _ => .ok
  | .error e => .err (MapError.fromOutOfMemory e)

/-- Whether a flush/invalidate device result is `Ok`. -/
def isOkB : Except OutOfMemory Unit → Bool
  | .ok _ => true
  | .error _ => false

/-- `MemoryBlock::write_bytes`: map, copy the caller bytes in, flush the
alignment-extended range when the memory is not host-coherent (the `align_up`
result is unwrapped, panicking on `none`), then unconditionally unmap; the
flush error, if any, is the returned result. -/
def MemoryBlock.write_bytes (b : MemoryBlock) (device : Device)
    (offset dataLen : Nat) : RWResult :=
  let m := b.map device offset dataLen
  match m.out with
  | .panic msg => ⟨.panic msg, m.state, m.calls, false⟩
  | .err e => ⟨.err e, m.state, m.calls, false⟩
  | .ok _ =>
    if b.coherent then
      let u := ({ b with mapped := m.state } : MemoryBlock).unmap device
      ⟨.ok, u.2.1, m.calls ++ u.2.2, true⟩
    else
      match align_up (offset + dataLen) b.atom_mask with
      | none => ⟨.panic unwrapNoneMsg, m.state, m.calls, true⟩
      | some e =>
        let aligned_offset := align_down offset b.atom_mask
        let fr := device.flush_memory_ranges (b.offset + aligned_offset)
          (e - aligned_offset)
        let u := ({ b with mapped := m.state } : MemoryBlock).unmap device
        ⟨resultOf fr, u.2.1,
         m.calls ++ [.flushMemoryRanges (b.offset + aligned_offset) (e - aligned_offset)]
           ++ u.2.2,
         true⟩

/-- `MemoryBlock::read_bytes`: map, invalidate the alignment-extended range
when the memory is not host-coherent (unwrapping the `align_up` result), copy
the bytes out only if the invalidate succeeded, then unconditionally unmap; the
invalidate error, if any, is the returned result. -/
def MemoryBlock.read_bytes (b : MemoryBlock) (device : Device)
    (offset dataLen : Nat) : RWResult :=
  let m := b.map device offset dataLen
  match m.out with
  | .panic msg => ⟨.panic msg, m.state, m.calls, false⟩
  | .err e => ⟨.err e, m.state, m.calls, false⟩
  | .ok _ =>
    if b.coherent then
      let u := ({ b with mapped := m.state } : MemoryBlock).unmap device
      ⟨.ok, u.2.1, m.calls ++ u.2.2, true⟩
    else
      match align_up (offset + dataLen) b.atom_mask with
      | none => ⟨.panic unwrapNoneMsg, m.state, m.calls, false⟩
      | some e =>
        let aligned_offset := align_down offset b.atom_mask
        let ir := device.invalidate_memory_ranges (b.offset + aligned_offset)
          (e - aligned_offset)
        let u := ({ b with mapped := m.state } : MemoryBlock).unmap device
        ⟨resultOf ir, u.2.1,
         m.calls ++ [.invalidateMemoryRanges (b.offset + aligned_offset) (e - aligned_offset)]
           ++ u.2.2,
         isOkB ir⟩

/-- `MemoryBlock::new`: checks `isize::try_from(atom_mask)` (panic, modelled as
`none`, when the mask exceeds the signed pointer-offset range) and returns the
block with the mapping atomic initialized to `Unmapped`. -/
def MemoryBlock.new (memory memory_type : Nat) (props : MemoryPropertyFlags)
    (offset size atom_mask : Nat) (flavor : MemoryBlockFlavor) :
    Option MemoryBlock :=
  if ISIZE_MAX < atom_mask then none
  else some
    { memory := memory, memory_type := memory_type, props := props,
      offset := offset, size := size, atom_mask := atom_mask,
      mapped := .unmapped, flavor := flavor }

/-- What `deallocate` hands back to the external allocator: the native handle
and the flavor payload, with the leak-detection guard disarmed
(`core::mem::forget(self.relevant)` means the guard will not fire). -/
structure DeallocOutcome where
  memory : Nat
  flavor : MemoryBlockFlavor
  guardDisarmed : Bool
deriving DecidableEq

/-- `MemoryBlock::deallocate`: consumes the block, forgets the guard, and
returns the memory handle and the flavor. -/
def MemoryBlock.deallocate (b : MemoryBlock) : DeallocOutcome :=
  { memory := b.memory, flavor := b.flavor, guardDisarmed := true }

/-! Concrete fixtures used by witnesses and counterexamples. -/

/-- A device whose every call succeeds; `map_memory` returns address 1000. -/
def devOk : Device :=
  { map_memory := fun _ _ => .ok 1000,
    flush_memory_ranges := fun _ _ => .ok (),
    invalidate_memory_ranges := fun _ _ => .ok () }

/-- A device whose `map_memory` fails with out-of-device-memory. -/
def devMapErr : Device :=
  { map_memory := fun _ _ => .error .outOfDeviceMemory,
    flush_memory_ranges := fun _ _ => .ok (),
    invalidate_memory_ranges := fun _ _ => .ok () }

/-- A device whose flush and invalidate calls fail with out-of-host-memory. -/
def devSyncErr : Device :=
  { map_memory := fun _ _ => .ok 1000,
    flush_memory_ranges := fun _ _ => .error .outOfHostMemory,
    invalidate_memory_ranges := fun _ _ => .error .outOfHostMemory }

/-- A Dedicated, non-coherent, unmapped block: parent offset 100, size 256,
atom mask 63. -/
def b0 : MemoryBlock :=
  { memory := 7, memory_type := 0,
    props := { host_visible := true, host_coherent := false, host_cached := false },
    offset := 100, size := 256, atom_mask := 63,
    mapped := .unmapped, flavor := .dedicated }

/-- A Dedicated block lacking host visibility (all property flags clear). -/
def bNV : MemoryBlock :=
  { memory := 3, memory_type := 1,
    props := { host_visible := false, host_coherent := false, host_cached := false },
    offset := 0, size := 256, atom_mask := 63,
    mapped := .unmapped, flavor := .dedicated }

/-- A Linear block with no resident pointer. -/
def bLinNone : MemoryBlock :=
  { memory := 5, memory_type := 1,
    props := { host_visible := false, host_coherent := false, host_cached := false },
    offset := 0, size := 256, atom_mask := 63,
    mapped := .unmapped, flavor := .linear 11 none }

/-- The spec scenario block: parent offset 0, size 256, atom mask 63,
non-coherent, Dedicated. -/
def bScen : MemoryBlock :=
  { memory := 9, memory_type := 0,
    props := { host_visible := true, host_coherent := false, host_cached := false },
    offset := 0, size := 256, atom_mask := 63,
    mapped := .unmapped, flavor := .dedicated }

/-- A host-coherent Dedicated block. -/
def bCoh : MemoryBlock :=
  { memory := 4, memory_type := 2,
    props := { host_visible := true, host_coherent := true, host_cached := true },
    offset := 100, size := 256, atom_mask := 63,
    mapped := .unmapped, flavor := .dedicated }

/-- A non-coherent Linear block with a resident pointer whose size reaches the
top of the `u64` range. -/
def bBig : MemoryBlock :=
  { memory := 2, memory_type := 0,
    props := { host_visible := true, host_coherent := false, host_cached := false },
    offset := 0, size := U64_LIMIT - 1, atom_mask := 63,
    mapped := .unmapped, flavor := .linear 0 (some 5000) }

/-! Helper lemmas shared by several claims. -/

/-- After a successful `map`, the mapping state is `Mapped`. -/
theorem map_ok_state_aux (b : MemoryBlock) (device : Device)
    (offset size p : Nat)
    (h : (b.map device offset size).out = .ok p) :
    (b.map device offset size).state = .mapped := by
  unfold MemoryBlock.map at h ⊢
  by_cases h1 : U64_LIMIT ≤ size
  · rw [if_pos h1] at h; simp at h
  · rw [if_neg h1] at h ⊢
    by_cases h2 : b.size ≤ offset
    · rw [if_pos h2] at h; simp at h
    · rw [if_neg h2] at h ⊢
      by_cases h3 : b.size - offset < size
      · rw [if_pos h3] at h; simp at h
      · rw [if_neg h3] at h ⊢
        rcases hb : b.flavor with _ | ⟨c, _ | q⟩ | ⟨c, i, _ | q⟩ <;>
          rw [hb] at h
        · rcases ha : align_up (offset + size) b.atom_mask with _ | e <;>
            rw [ha] at h
          · simp at h
          · rcases hm : b.mapped <;> rw [hm] at h <;>
              simp only [start_mapping] at h
            · rcases hdv : device.map_memory
                  (b.offset + align_down offset b.atom_mask)
                  (e - align_down offset b.atom_mask) with er | q2 <;>
                rw [hdv] at h
              · simp at h
              · simp [start_mapping, end_mapping, hdv]
            · simp at h
            · simp at h
            · simp at h
        · simp at h
        · change (mapResident b offset q).state = MappingState.mapped
          unfold mapResident at h ⊢
          rcases hm : b.mapped <;> rw [hm] at h <;>
            simp only [acquire_mapping] at h
          · simp only [acquire_mapping]
            split <;> rfl
          · simp at h
          · simp at h
          · simp at h
        · simp at h
        · change (mapResident b offset q).state = MappingState.mapped
          unfold mapResident at h ⊢
          rcases hm : b.mapped <;> rw [hm] at h <;>
            simp only [acquire_mapping] at h
          · simp only [acquire_mapping]
            split <;> rfl
          · simp at h
          · simp at h
          · simp at h

/-- `unmap` on a `Mapped` block: success, final state `Unmapped`, a device
unmap call exactly for Dedicated flavor. -/
theorem unmap_mapped_aux (b : MemoryBlock) (device : Device)
    (h : b.mapped = .mapped) :
    b.unmap device = (true, .unmapped,
      if b.flavor = .dedicated then [.unmapMemory] else []) := by
  unfold MemoryBlock.unmap
  rw [h]
  simp only [start_unmapping]
  rcases hb : b.flavor <;> simp [end_unmapping]

/-- The resident-pointer success path of `map` for Linear/Buddy flavor. -/
theorem map_resident_ok_aux (b : MemoryBlock) (device : Device)
    (offset size q : Nat)
    (hflavor : (∃ c, b.flavor = .linear c (some q)) ∨
      (∃ c i, b.flavor = .buddy c i (some q)))
    (hsz : size < U64_LIMIT)
    (hoff : offset < b.size)
    (hbound : offset + size ≤ b.size)
    (hst : b.mapped = .unmapped)
    (hiso : offset ≤ ISIZE_MAX) :
    b.map device offset size = ⟨.ok (q + offset), .mapped, []⟩ := by
  unfold MemoryBlock.map
  rw [if_neg (by omega), if_neg (by omega), if_neg (by omega)]
  rcases hflavor with ⟨c, hb⟩ | ⟨c, i, hb⟩ <;> rw [hb] <;>
    unfold mapResident <;> rw [hst] <;>
    simp only [acquire_mapping] <;> rw [if_neg (by omega)]

/-- A Dedicated `map` can only succeed when `align_up` did not overflow. -/
theorem map_dedicated_ok_align_aux (b : MemoryBlock) (device : Device)
    (offset size p : Nat)
    (hflavor : b.flavor = .dedicated)
    (hmap : (b.map device offset size).out = .ok p) :
    ∃ e, align_up (offset + size) b.atom_mask = some e := by
  rcases ha : align_up (offset + size) b.atom_mask with _ | e
  · exfalso
    unfold MemoryBlock.map at hmap
    by_cases h1 : U64_LIMIT ≤ size
    · rw [if_pos h1] at hmap; simp at hmap
    · rw [if_neg h1] at hmap
      by_cases h2 : b.size ≤ offset
      · rw [if_pos h2] at hmap; simp at hmap
      · rw [if_neg h2] at hmap
        by_cases h3 : b.size - offset < size
        · rw [if_pos h3] at hmap; simp at hmap
        · rw [if_neg h3] at hmap
          rw [hflavor, ha] at hmap
          simp at hmap
  · exact ⟨e, rfl⟩

/-- The Dedicated success path of `map`. -/
theorem map_dedicated_ok_aux (b : MemoryBlock) (device : Device)
    (offset size p e : Nat)
    (hflavor : b.flavor = .dedicated)
    (hsz : size < U64_LIMIT)
    (hoff : offset < b.size)
    (hbound : offset + size ≤ b.size)
    (halign : align_up (offset + size) b.atom_mask = some e)
    (hst : b.mapped = .unmapped)
    (hdev : device.map_memory (b.offset + align_down offset b.atom_mask)
        (e - align_down offset b.atom_mask) = .ok p) :
    b.map device offset size =
      ⟨.ok (p + (offset - align_down offset b.atom_mask)), .mapped,
       [.mapMemory (b.offset + align_down offset b.atom_mask)
          (e - align_down offset b.atom_mask)]⟩ := by
  unfold MemoryBlock.map
  rw [if_neg (by omega), if_neg (by omega), if_neg (by omega), hflavor]
  simp only [halign, hst, start_mapping, hdev, end_mapping]

/-- The Dedicated device-failure path of `map`. -/
theorem map_dedicated_err_aux (b : MemoryBlock) (device : Device)
    (offset size e : Nat) (derr : DeviceMapError)
    (hflavor : b.flavor = .dedicated)
    (hsz : size < U64_LIMIT)
    (hoff : offset < b.size)
    (hbound : offset + size ≤ b.size)
    (halign : align_up (offset + size) b.atom_mask = some e)
    (hst : b.mapped = .unmapped)
    (hdev : device.map_memory (b.offset + align_down offset b.atom_mask)
        (e - align_down offset b.atom_mask) = .error derr) :
    b.map device offset size =
      ⟨.err (MapError.fromDevice derr), .unmapped,
       [.mapMemory (b.offset + align_down offset b.atom_mask)
          (e - align_down offset b.atom_mask)]⟩ := by
  unfold MemoryBlock.map
  rw [if_neg (by omega), if_neg (by omega), if_neg (by omega), hflavor]
  simp only [halign, hst, start_mapping, hdev, mapping_failed]

/-! Claim theorems. -/

/-- Claim C1: for every Dedicated block and in-bounds `(offset, size)`, when
the mapping state is successfully claimed (the block is `Unmapped`) and the
device map call succeeds, `map` asks the device to map exactly the range
starting at `block.offset + align_down(offset, atom_mask)` with length
`align_up(offset + size, atom_mask) - align_down(offset, atom_mask)`, returns
the device pointer advanced by `offset - align_down(offset, atom_mask)`, and
leaves the state `Mapped`. -/
theorem map_dedicated_window (b : MemoryBlock) (device : Device)
    (offset size p e : Nat)
    (hflavor : b.flavor = .dedicated)
    (hsz : size < U64_LIMIT)
    (hoff : offset < b.size)
    (hbound : offset + size ≤ b.size)
    (halign : align_up (offset + size) b.atom_mask = some e)
    (hst : b.mapped = .unmapped)
    (hdev : device.map_memory (b.offset + align_down offset b.atom_mask)
        (e - align_down offset b.atom_mask) = .ok p) :
    b.map device offset size =
      ⟨.ok (p + (offset - align_down offset b.atom_mask)), .mapped,
       [.mapMemory (b.offset + align_down offset b.atom_mask)
          (e - align_down offset b.atom_mask)]⟩ :=
  map_dedicated_ok_aux b device offset size p e hflavor hsz hoff hbound halign
    hst hdev

/-- Witness for `map_dedicated_window`: the concrete Dedicated block `b0`
(parent offset 100, atom mask 63) mapped at offset 10 with size 20 issues
`map_memory 100 64` and returns pointer 1010. -/
theorem map_dedicated_window_w :
    b0.map devOk 10 20 = ⟨.ok 1010, .mapped, [.mapMemory 100 64]⟩ :=
  (map_dedicated_window b0 devOk 10 20 1000 64 rfl (by decide) (by decide)
    (by decide) (by decide) rfl rfl).trans (by decide)

/-- Claim C3: for every Dedicated map call whose device `map_memory` call
fails, `map` returns the device error converted to the typed map error and the
state is rolled back to `Unmapped`; a subsequent map with the same arguments on
the same (rolled-back) block succeeds whenever its device map call succeeds. -/
theorem map_dedicated_failure_rollback (b : MemoryBlock) (device : Device)
    (offset size e : Nat) (derr : DeviceMapError)
    (hflavor : b.flavor = .dedicated)
    (hsz : size < U64_LIMIT)
    (hoff : offset < b.size)
    (hbound : offset + size ≤ b.size)
    (halign : align_up (offset + size) b.atom_mask = some e)
    (hst : b.mapped = .unmapped)
    (hdev : device.map_memory (b.offset + align_down offset b.atom_mask)
        (e - align_down offset b.atom_mask) = .error derr) :
    b.map device offset size =
      ⟨.err (MapError.fromDevice derr), .unmapped,
       [.mapMemory (b.offset + align_down offset b.atom_mask)
          (e - align_down offset b.atom_mask)]⟩ ∧
    ∀ (device2 : Device) (p : Nat),
      device2.map_memory (b.offset + align_down offset b.atom_mask)
        (e - align_down offset b.atom_mask) = .ok p →
      (b.map device2 offset size).out =
        .ok (p + (offset - align_down offset b.atom_mask)) := by
  refine ⟨map_dedicated_err_aux b device offset size e derr hflavor hsz hoff
    hbound halign hst hdev, fun device2 p hp => ?_⟩
  rw [map_dedicated_ok_aux b device2 offset size p e hflavor hsz hoff hbound
    halign hst hp]

/-- Witness for `map_dedicated_failure_rollback`: mapping `b0` through a
failing device returns the converted error with state `Unmapped`, and the same
call through a succeeding device returns pointer 1010. -/
theorem map_dedicated_failure_rollback_w :
    b0.map devMapErr 10 20 =
      ⟨.err .outOfDeviceMemory, .unmapped, [.mapMemory 100 64]⟩ ∧
    (b0.map devOk 10 20).out = .ok 1010 := by
  have h := map_dedicated_failure_rollback b0 devMapErr 10 20 64
    .outOfDeviceMemory rfl (by decide) (by decide) (by decide) (by decide)
    rfl rfl
  exact ⟨h.1.trans (by decide), (h.2 devOk 1000 rfl).trans (by decide)⟩

/-- Claim C2: `map` hits one of its three contract-assertion panics exactly
when the preconditions are violated: a panic with the size-fit, offset-bounds
or size-bounds message occurs iff `size` does not fit `u64`, or
`offset ≥ block.size`, or `offset + size > block.size`; under the
preconditions none of these assertion failures is reachable. -/
theorem map_assert_panics_iff (b : MemoryBlock) (device : Device)
    (offset size : Nat) :
    ((b.map device offset size).out = .panic sizeFitMsg ∨
     (b.map device offset size).out = .panic offsetOOBMsg ∨
     (b.map device offset size).out = .panic sizeOOBMsg) ↔
    ¬ (size < U64_LIMIT ∧ offset < b.size ∧ offset + size ≤ b.size) := by
  unfold MemoryBlock.map
  by_cases h1 : U64_LIMIT ≤ size
  · rw [if_pos h1]
    exact iff_of_true (Or.inl rfl) (by omega)
  · rw [if_neg h1]
    by_cases h2 : b.size ≤ offset
    · rw [if_pos h2]
      exact iff_of_true (Or.inr (Or.inl rfl)) (by omega)
    · rw [if_neg h2]
      by_cases h3 : b.size - offset < size
      · rw [if_pos h3]
        exact iff_of_true (Or.inr (Or.inr rfl)) (by omega)
      · rw [if_neg h3]
        refine iff_of_false ?_ (not_not_intro (by omega))
        rcases hb : b.flavor with _ | ⟨c, _ | p⟩ | ⟨c, i, _ | p⟩
        · rcases ha : align_up (offset + size) b.atom_mask with _ | e
          · simp [sizeFitMsg, offsetOOBMsg, sizeOOBMsg, mappingEndMsg]
          · rcases hm : b.mapped <;>
              simp only [start_mapping] <;>
              [rcases hdv : device.map_memory
                  (b.offset + align_down offset b.atom_mask)
                  (e - align_down offset b.atom_mask) with er | q;
                skip; skip; skip] <;>
              simp [sizeFitMsg, offsetOOBMsg, sizeOOBMsg]
        · simp [sizeFitMsg, offsetOOBMsg, sizeOOBMsg]
        · unfold mapResident
          rcases hm : b.mapped <;>
            simp only [acquire_mapping] <;>
            [by_cases ho : ISIZE_MAX < offset; skip; skip; skip] <;>
            first
            | (rw [if_pos ho];
                simp [sizeFitMsg, offsetOOBMsg, sizeOOBMsg, hostSpaceMsg])
            | (rw [if_neg ho]; simp [sizeFitMsg, offsetOOBMsg, sizeOOBMsg])
            | simp [sizeFitMsg, offsetOOBMsg, sizeOOBMsg]
        · simp [sizeFitMsg, offsetOOBMsg, sizeOOBMsg]
        · unfold mapResident
          rcases hm : b.mapped <;>
            simp only [acquire_mapping] <;>
            [by_cases ho : ISIZE_MAX < offset; skip; skip; skip] <;>
            first
            | (rw [if_pos ho];
                simp [sizeFitMsg, offsetOOBMsg, sizeOOBMsg, hostSpaceMsg])
            | (rw [if_neg ho]; simp [sizeFitMsg, offsetOOBMsg, sizeOOBMsg])
            | simp [sizeFitMsg, offsetOOBMsg, sizeOOBMsg]


/-- Counterexample to claim C4 as stated: the Dedicated block `bNV` lacks host
visibility, yet `map` does not fail with `NonHostVisible` and does not leave
the device alone — it issues a `map_memory` call, succeeds, and becomes
`Mapped`.  The host-visibility property flags are never consulted by `map`. -/
theorem map_nonvisible_dedicated_cex :
    bNV.props.host_visible = false ∧
    bNV.map devOk 0 16 = ⟨.ok 1000, .mapped, [.mapMemory 0 64]⟩ := by
  constructor
  · rfl
  · decide

/-- Claim C4 (amended): for every block whose flavor is Linear or Buddy with no
resident pointer, every map call meeting the contract assertions fails with
`NonHostVisible`, makes no device call, and leaves the mapping state
unchanged.  (The original claim also covered any flavor lacking host
visibility; `map` never consults the property flags, so a non-host-visible
Dedicated block still performs the device call.) -/
theorem map_no_resident_ptr (b : MemoryBlock) (device : Device)
    (offset size : Nat)
    (hflavor : (∃ c, b.flavor = .linear c none) ∨
      (∃ c i, b.flavor = .buddy c i none))
    (hsz : size < U64_LIMIT)
    (hoff : offset < b.size)
    (hbound : offset + size ≤ b.size) :
    b.map device offset size = ⟨.err .nonHostVisible, b.mapped, []⟩ := by
  unfold MemoryBlock.map
  rw [if_neg (by omega), if_neg (by omega), if_neg (by omega)]
  rcases hflavor with ⟨c, hb⟩ | ⟨c, i, hb⟩ <;> rw [hb]

/-- Witness for `map_no_resident_ptr`: a Linear block with no resident pointer
rejects a well-formed map call with `NonHostVisible` and no device calls. -/
theorem map_no_resident_ptr_w :
    bLinNone.map devOk 10 20 = ⟨.err .nonHostVisible, .unmapped, []⟩ :=
  (map_no_resident_ptr bLinNone devOk 10 20 (Or.inl ⟨11, rfl⟩) (by decide)
    (by decide) (by decide)).trans (by decide)

/-- Claim C5: when the mapping state is not `Mapped`, `unmap` returns `false`,
makes no device call and leaves the state unchanged; when it is `Mapped`,
`unmap` returns `true`, issues the device unmap call exactly for Dedicated
flavor, and leaves the state `Unmapped`. -/
theorem unmap_cases (b : MemoryBlock) (device : Device) :
    b.unmap device =
      if b.mapped = .mapped then
        (true, .unmapped,
          if b.flavor = .dedicated then [.unmapMemory] else [])
      else (false, b.mapped, []) := by
  unfold MemoryBlock.unmap
  rcases hm : b.mapped <;> simp only [start_unmapping] <;>
    rcases hb : b.flavor <;> simp [end_unmapping]

/-- Claim C6: for every successful `write_bytes` call on a non-host-coherent
block, the flush range passed to the device starts at
`block.offset + align_down(offset, atom_mask)` and has length
`align_up(offset + len, atom_mask) - align_down(offset, atom_mask)`; the block
is unmapped afterward regardless of the flush outcome, and the flush error, if
any, is the returned result.  (Witness: the spec scenario with size 256, atom
mask 63, offset 10, 20 bytes flushes exactly `[0, 64)` from block start.) -/
theorem write_bytes_flush_window (b : MemoryBlock) (device : Device)
    (offset dataLen p e : Nat)
    (hmap : (b.map device offset dataLen).out = .ok p)
    (hcoh : b.coherent = false)
    (halign : align_up (offset + dataLen) b.atom_mask = some e) :
    b.write_bytes device offset dataLen =
      ⟨resultOf (device.flush_memory_ranges
          (b.offset + align_down offset b.atom_mask)
          (e - align_down offset b.atom_mask)),
       .unmapped,
       (b.map device offset dataLen).calls ++
         [.flushMemoryRanges (b.offset + align_down offset b.atom_mask)
            (e - align_down offset b.atom_mask)] ++
         (if b.flavor = .dedicated then [.unmapMemory] else []),
       true⟩ := by
  have hst := map_ok_state_aux b device offset dataLen p hmap
  have hu := unmap_mapped_aux
    ({ b with mapped := (b.map device offset dataLen).state } : MemoryBlock)
    device hst
  unfold MemoryBlock.write_bytes
  simp [hmap, hcoh, halign, hu]

/-- Witness for `write_bytes_flush_window`: the spec scenario block `bScen`
(parent offset 0, size 256, atom mask 63, non-coherent, Dedicated), written at
offset 10 with 20 bytes, flushes exactly the range starting at 0 with length
64 and ends unmapped. -/
theorem write_bytes_flush_window_w :
    bScen.write_bytes devOk 10 20 =
      ⟨.ok, .unmapped,
       [.mapMemory 0 64, .flushMemoryRanges 0 64, .unmapMemory], true⟩ :=
  (write_bytes_flush_window bScen devOk 10 20 1010 64 (by decide) rfl
    (by decide)).trans (by decide)

/-- Claim C7: for every `read_bytes` call that successfully maps: on a
host-coherent block no invalidate call is made and the copy into the caller
buffer always happens; on a non-host-coherent block the alignment-extended
range is invalidated, the copy happens exactly when the invalidate succeeded
(the buffer is unmodified on invalidate failure), the block is always unmapped
afterward, and the invalidate error, if any, is the returned result. -/
theorem read_bytes_invalidate_window (b : MemoryBlock) (device : Device)
    (offset dataLen p : Nat)
    (hmap : (b.map device offset dataLen).out = .ok p) :
    (b.coherent = true →
      b.read_bytes device offset dataLen =
        ⟨.ok, .unmapped,
         (b.map device offset dataLen).calls ++
           (if b.flavor = .dedicated then [.unmapMemory] else []),
         true⟩) ∧
    (∀ e, b.coherent = false →
      align_up (offset + dataLen) b.atom_mask = some e →
      b.read_bytes device offset dataLen =
        ⟨resultOf (device.invalidate_memory_ranges
            (b.offset + align_down offset b.atom_mask)
            (e - align_down offset b.atom_mask)),
         .unmapped,
         (b.map device offset dataLen).calls ++
           [.invalidateMemoryRanges (b.offset + align_down offset b.atom_mask)
              (e - align_down offset b.atom_mask)] ++
           (if b.flavor = .dedicated then [.unmapMemory] else []),
         isOkB (device.invalidate_memory_ranges
            (b.offset + align_down offset b.atom_mask)
            (e - align_down offset b.atom_mask))⟩) := by
  have hst := map_ok_state_aux b device offset dataLen p hmap
  have hu := unmap_mapped_aux
    ({ b with mapped := (b.map device offset dataLen).state } : MemoryBlock)
    device hst
  constructor
  · intro hcoh
    unfold MemoryBlock.read_bytes
    simp [hmap, hcoh, hu]
  · intro e hcoh halign
    unfold MemoryBlock.read_bytes
    simp [hmap, hcoh, halign, hu]

/-- Witness for `read_bytes_invalidate_window`: reading the coherent block
`bCoh` makes no invalidate call and copies; reading the non-coherent block
`bScen` through a device whose invalidate fails returns the converted error,
does not copy, and still unmaps. -/
theorem read_bytes_invalidate_window_w :
    bCoh.read_bytes devOk 10 20 =
      ⟨.ok, .unmapped, [.mapMemory 100 64, .unmapMemory], true⟩ ∧
    bScen.read_bytes devSyncErr 10 20 =
      ⟨.err .outOfHostMemory, .unmapped,
       [.mapMemory 0 64, .invalidateMemoryRanges 0 64, .unmapMemory],
       false⟩ :=
  ⟨(((read_bytes_invalidate_window bCoh devOk 10 20 1010 (by decide)).1)
      rfl).trans (by decide),
   (((read_bytes_invalidate_window bScen devSyncErr 10 20 1010 (by decide)).2)
      64 rfl (by decide)).trans (by decide)⟩

/-- Claim C8: for every block in the `Unmapped` state and arguments on which
`map` succeeds, `map` leaves the state `Mapped`, the following `unmap` succeeds
and leaves the state `Unmapped`, and a subsequent `map` with the same arguments
on the resulting block behaves exactly like the first (hence succeeds, the
device call being the same). -/
theorem map_unmap_map (b : MemoryBlock) (device : Device)
    (offset size p : Nat)
    (hst : b.mapped = .unmapped)
    (hmap : (b.map device offset size).out = .ok p) :
    (b.map device offset size).state = .mapped ∧
    (({ b with mapped := (b.map device offset size).state } :
        MemoryBlock).unmap device).1 = true ∧
    (({ b with mapped := (b.map device offset size).state } :
        MemoryBlock).unmap device).2.1 = .unmapped ∧
    ({ b with mapped :=
        (({ b with mapped := (b.map device offset size).state } :
          MemoryBlock).unmap device).2.1 } : MemoryBlock).map device offset
        size = b.map device offset size := by
  have h1 := map_ok_state_aux b device offset size p hmap
  have hu := unmap_mapped_aux
    ({ b with mapped := (b.map device offset size).state } : MemoryBlock)
    device h1
  rw [hu]
  refine ⟨h1, rfl, rfl, ?_⟩
  have hb : ({ b with mapped := .unmapped } : MemoryBlock) = b := by
    rw [← hst]
  rw [hb]

/-- Witness for `map_unmap_map`: the map-unmap-map round trip on `b0`. -/
theorem map_unmap_map_w :
    ({ b0 with mapped :=
        (({ b0 with mapped := (b0.map devOk 10 20).state } :
          MemoryBlock).unmap devOk).2.1 } : MemoryBlock).map devOk 10 20 =
      b0.map devOk 10 20 :=
  (map_unmap_map b0 devOk 10 20 1010 rfl (by decide)).2.2.2

/-- Claim C9: for every construction tuple whose `atom_mask` fits the signed
pointer-offset range, the constructor returns a block in the `Unmapped`
mapping state, and `deallocate` applied to that block disarms the
leak-detection guard and returns exactly the memory handle and the flavor
payload the block was constructed with. -/
theorem new_deallocate_roundtrip (memory memory_type : Nat)
    (props : MemoryPropertyFlags) (offset size atom_mask : Nat)
    (flavor : MemoryBlockFlavor)
    (h : atom_mask ≤ ISIZE_MAX) :
    MemoryBlock.new memory memory_type props offset size atom_mask flavor =
      some { memory := memory, memory_type := memory_type, props := props,
             offset := offset, size := size, atom_mask := atom_mask,
             mapped := .unmapped, flavor := flavor } ∧
    MemoryBlock.deallocate
      { memory := memory, memory_type := memory_type, props := props,
        offset := offset, size := size, atom_mask := atom_mask,
        mapped := .unmapped, flavor := flavor } =
      ⟨memory, flavor, true⟩ := by
  unfold MemoryBlock.new
  rw [if_neg (by omega)]
  exact ⟨rfl, rfl⟩

/-- Witness for `new_deallocate_roundtrip` at a concrete construction tuple. -/
theorem new_deallocate_roundtrip_w :
    MemoryBlock.new 7 0
      { host_visible := true, host_coherent := true, host_cached := false }
      0 256 63 .dedicated =
      some { memory := 7, memory_type := 0,
             props := { host_visible := true, host_coherent := true,
                        host_cached := false },
             offset := 0, size := 256, atom_mask := 63,
             mapped := .unmapped, flavor := .dedicated } ∧
    MemoryBlock.deallocate
      { memory := 7, memory_type := 0,
        props := { host_visible := true, host_coherent := true,
                   host_cached := false },
        offset := 0, size := 256, atom_mask := 63,
        mapped := .unmapped, flavor := .dedicated } =
      ⟨7, .dedicated, true⟩ :=
  new_deallocate_roundtrip 7 0
    { host_visible := true, host_coherent := true, host_cached := false }
    0 256 63 .dedicated (by decide)

/-- Claim C10: on a non-host-coherent Linear or Buddy block with a resident
pointer, `write_bytes` and `read_bytes` unwrap the `align_up` result, so when
`offset + len` is within `atom_mask` of the `u64` maximum (`align_up` returns
`none`) the call panics instead of returning a typed error, even though `map`
for these flavors performed no alignment-overflow check; for Dedicated flavor
this unwrap never panics, because a successful `map` already checked the same
alignment. -/
theorem rw_align_unwrap (b : MemoryBlock) (device : Device)
    (offset dataLen : Nat) :
    ((b.coherent = false ∧
      ((∃ c q, b.flavor = .linear c (some q)) ∨
       (∃ c i q, b.flavor = .buddy c i (some q))) ∧
      dataLen < U64_LIMIT ∧ offset < b.size ∧ offset + dataLen ≤ b.size ∧
      b.mapped = .unmapped ∧ offset ≤ ISIZE_MAX ∧
      align_up (offset + dataLen) b.atom_mask = none) →
      (b.write_bytes device offset dataLen).out = .panic unwrapNoneMsg ∧
      (b.read_bytes device offset dataLen).out = .panic unwrapNoneMsg) ∧
    (b.flavor = .dedicated →
      ∀ p, (b.map device offset dataLen).out = .ok p →
        (b.write_bytes device offset dataLen).out ≠ .panic unwrapNoneMsg ∧
        (b.read_bytes device offset dataLen).out ≠ .panic unwrapNoneMsg) := by
  constructor
  · rintro ⟨hcoh, hflavor, hsz, hoff, hbound, hst, hiso, hnone⟩
    have hm : ∃ q, b.map device offset dataLen = ⟨.ok (q + offset), .mapped, []⟩ := by
      rcases hflavor with ⟨c, q, hb⟩ | ⟨c, i, q, hb⟩
      · exact ⟨q, map_resident_ok_aux b device offset dataLen q
          (Or.inl ⟨c, hb⟩) hsz hoff hbound hst hiso⟩
      · exact ⟨q, map_resident_ok_aux b device offset dataLen q
          (Or.inr ⟨c, i, hb⟩) hsz hoff hbound hst hiso⟩
    obtain ⟨q, hm⟩ := hm
    constructor
    · unfold MemoryBlock.write_bytes
      simp [hm, hcoh, hnone]
    · unfold MemoryBlock.read_bytes
      simp [hm, hcoh, hnone]
  · intro hded p hmap
    obtain ⟨e, he⟩ :=
      map_dedicated_ok_align_aux b device offset dataLen p hded hmap
    constructor
    · unfold MemoryBlock.write_bytes
      by_cases hc : b.coherent
      · simp [hmap, hc]
      · rcases hfr : device.flush_memory_ranges
            (b.offset + align_down offset b.atom_mask)
            (e - align_down offset b.atom_mask) with er | u <;>
          simp [hmap, hc, he, hfr, resultOf]
    · unfold MemoryBlock.read_bytes
      by_cases hc : b.coherent
      · simp [hmap, hc]
      · rcases hir : device.invalidate_memory_ranges
            (b.offset + align_down offset b.atom_mask)
            (e - align_down offset b.atom_mask) with er | u <;>
          simp [hmap, hc, he, hir, resultOf]

/-- Witness for `rw_align_unwrap`: on the huge non-coherent Linear block
`bBig`, writing or reading `2^64 - 32` bytes at offset 0 panics at the
`align_up` unwrap; on the Dedicated block `b0`, after a successful map the
write cannot reach that panic. -/
theorem rw_align_unwrap_w :
    (bBig.write_bytes devOk 0 (U64_LIMIT - 32)).out = .panic unwrapNoneMsg ∧
    (bBig.read_bytes devOk 0 (U64_LIMIT - 32)).out = .panic unwrapNoneMsg ∧
    (b0.write_bytes devOk 10 20).out ≠ .panic unwrapNoneMsg := by
  have h1 := (rw_align_unwrap bBig devOk 0 (U64_LIMIT - 32)).1
    ⟨rfl, Or.inl ⟨0, 5000, rfl⟩, by decide, by decide, by decide, rfl,
     by decide, by decide⟩
  have h2 := (rw_align_unwrap b0 devOk 10 20).2 rfl 1010 (by decide)
  exact ⟨h1.1, h1.2, h2.1⟩
